import Mathlib

/-
  Shallow embedding of the authoritative server core of the two-player
  Pong game: the ball physics (server/src/utils/gamePhysics.ts), the
  room/session store (RoomManager in server/src/socket/gameEngine.ts)
  and the scoring/ending transitions of the match loop controller
  (GameEngine in server/src/socket/gameEngine.ts).

  Numbers are modelled as exact rationals; the randomized reset, whose
  velocity involves trigonometry, is modelled over the reals with the
  two random draws (direction sign and deflection angle) passed in
  explicitly.
-/

namespace Pong

/-- Playfield configuration, mirroring the GameDimensions interface. -/
structure GameDimensions where
  width : ℚ
  height : ℚ
  paddleWidth : ℚ
  paddleHeight : ℚ
  paddleOffset : ℚ
  ballSize : ℚ
deriving DecidableEq

/-- The DEFAULT_GAME_DIMENSIONS constant of gamePhysics.ts. -/
def DEFAULT_GAME_DIMENSIONS : GameDimensions :=
  { width := 800, height := 400, paddleWidth := 15, paddleHeight := 80
    paddleOffset := 30, ballSize := 15 }

/-- The Ball record: position, velocity components and scalar speed. -/
structure Ball where
  x : ℚ
  y : ℚ
  velocityX : ℚ
  velocityY : ℚ
  speed : ℚ
deriving DecidableEq

/-- The Player record of the server types (socketId omitted: it is
never read by the embedded operations). -/
structure Player where
  id : String
  paddleY : ℚ
  score : ℕ
  isReady : Bool
deriving DecidableEq

/-- INITIAL_SPEED constant of BallPhysics. -/
def INITIAL_SPEED : ℚ := 200

/-- SPEED_INCREASE constant of BallPhysics. -/
def SPEED_INCREASE : ℚ := 20

/-- MAX_SPEED constant of BallPhysics. -/
def MAX_SPEED : ℚ := 400

/-- MIN_ANGLE constant of BallPhysics. -/
def MIN_ANGLE : ℚ := 1/5

/-- JavaScript Math.sign on rationals: 1, -1, or 0 on zero input. -/
def qsign (q : ℚ) : ℚ := if 0 < q then 1 else if q < 0 then -1 else 0

/-- BallPhysics.checkWallCollisions: the top-wall branch runs first,
then the bottom-wall branch reads the possibly clamped state, exactly
as the two sequential if-statements of the source. -/
def checkWallCollisions (dims : GameDimensions) (b : Ball) : Ball :=
  let ballRadius := dims.ballSize / 2
  let b1 := if b.y - ballRadius ≤ 0 then
      { b with y := ballRadius, velocityY := |b.velocityY| }
    else b
  if b1.y + ballRadius ≥ dims.height then
    { b1 with y := dims.height - ballRadius, velocityY := -|b1.velocityY| }
  else b1

/-- BallPhysics.updateBallPosition: integrate position by velocity
times deltaTime, then resolve wall collisions. -/
def updateBallPosition (dims : GameDimensions) (b : Ball) (deltaTime : ℚ) : Ball :=
  checkWallCollisions dims
    { b with x := b.x + b.velocityX * deltaTime, y := b.y + b.velocityY * deltaTime }

/-- Which side the ball left the field on. -/
inductive Side where
  | left
  | right
deriving DecidableEq

/-- BallPhysics.checkScoringCollisions: left exit tested first, both
against the full ball radius. -/
def checkScoringCollisions (dims : GameDimensions) (b : Ball) : Option Side :=
  let ballRadius := dims.ballSize / 2
  if b.x + ballRadius < 0 then some Side.left
  else if b.x - ballRadius > dims.width then some Side.right
  else none

/-- BallPhysics.increaseBallSpeed: cap the speed at MAX_SPEED and
rescale both velocity components by the speed quotient. -/
def increaseBallSpeed (b : Ball) : Ball :=
  let newSpeed := min (b.speed + SPEED_INCREASE) MAX_SPEED
  let speedScale := newSpeed / b.speed
  { b with velocityX := b.velocityX * speedScale
           velocityY := b.velocityY * speedScale
           speed := newSpeed }

/-- The deflection applied on a paddle hit: vertical velocity from the
normalized hit point, floored in magnitude by MIN_ANGLE times the
speed through Math.sign of the freshly assigned value. -/
def paddleDeflect (dims : GameDimensions) (speed y paddleTop : ℚ) : ℚ :=
  let paddleCenter := paddleTop + dims.paddleHeight / 2
  let hitPoint := (y - paddleCenter) / (dims.paddleHeight / 2)
  let vy0 := hitPoint * speed * (7/10)
  if |vy0| < MIN_ANGLE * speed then qsign vy0 * MIN_ANGLE * speed else vy0

/-- The player-1 (left paddle) branch of checkPaddleCollisions. The
bounding box is computed from the ball as it stands at entry. -/
def paddleHit1 (dims : GameDimensions) (b : Ball) (p1 : Player) : Ball × Bool :=
  let ballRadius := dims.ballSize / 2
  let paddleLeft := dims.paddleOffset
  let paddleRight := dims.paddleOffset + dims.paddleWidth
  let paddleTop := p1.paddleY
  let paddleBottom := p1.paddleY + dims.paddleHeight
  if b.x - ballRadius ≤ paddleRight ∧ b.x + ballRadius ≥ paddleLeft ∧
     b.y + ballRadius ≥ paddleTop ∧ b.y - ballRadius ≤ paddleBottom ∧
     b.velocityX < 0 then
    ({ b with velocityX := |b.velocityX|
              velocityY := paddleDeflect dims b.speed b.y paddleTop
              x := paddleRight + ballRadius }, true)
  else (b, false)

/-- The player-2 (right paddle) branch of checkPaddleCollisions. The
source caches the bounding box of the original ball before the left
branch runs, but reads velocity, y and speed from the current ball: b0
is the cached original, b the current state. -/
def paddleHit2 (dims : GameDimensions) (b0 b : Ball) (p2 : Player) : Ball × Bool :=
  let ballRadius := dims.ballSize / 2
  let paddleLeft := dims.width - dims.paddleOffset - dims.paddleWidth
  let paddleRight := dims.width - dims.paddleOffset
  let paddleTop := p2.paddleY
  let paddleBottom := p2.paddleY + dims.paddleHeight
  if b0.x - ballRadius ≤ paddleRight ∧ b0.x + ballRadius ≥ paddleLeft ∧
     b0.y + ballRadius ≥ paddleTop ∧ b0.y - ballRadius ≤ paddleBottom ∧
     b.velocityX > 0 then
    ({ b with velocityX := -|b.velocityX|
              velocityY := paddleDeflect dims b.speed b.y paddleTop
              x := paddleLeft - ballRadius }, true)
  else (b, false)

/-- BallPhysics.checkPaddleCollisions: returns no collision for fewer
than 2 players (the early length guard of the source; with at least 2
players the guarded players[0] and players[1] lookups always succeed),
tests the left paddle then the right paddle, and applies the speed
increase once when either branch hit. -/
def checkPaddleCollisions (dims : GameDimensions) (b : Ball) (players : List Player) :
    Ball × Bool :=
  match players with
  | p1 :: p2 :: _ =>
    let s1 := paddleHit1 dims b p1
    let s2 := paddleHit2 dims b s1.1 p2
    if s1.2 || s2.2 then (increaseBallSpeed s2.1, true) else (s2.1, false)
  | _ => (b, false)

/-- Real-valued ball, used only for the randomized reset whose
velocity is built from cosine and sine. -/
structure BallR where
  x : ℝ
  y : ℝ
  velocityX : ℝ
  velocityY : ℝ
  speed : ℝ

/-- BallPhysics.resetBall with the two random draws made explicit:
direction is the random horizontal sign (plus or minus one) and angle
the random deflection angle. -/
noncomputable def resetBall (dims : GameDimensions) (direction angle : ℝ) : BallR :=
  { x := (dims.width : ℝ) / 2
    y := (dims.height : ℝ) / 2
    velocityX := direction * (INITIAL_SPEED : ℝ) * Real.cos angle
    velocityY := (INITIAL_SPEED : ℝ) * Real.sin angle
    speed := (INITIAL_SPEED : ℝ) }

/-- The Ball speed invariant of the spec, over the rational model. -/
def speedInv (b : Ball) : Prop := b.speed ^ 2 = b.velocityX ^ 2 + b.velocityY ^ 2

instance (b : Ball) : Decidable (speedInv b) := by
  unfold speedInv; infer_instance

/-- The Ball speed invariant over the real-valued model. -/
def speedInvR (b : BallR) : Prop := b.speed ^ 2 = b.velocityX ^ 2 + b.velocityY ^ 2

/-! Session store (RoomManager) and the scoring/ending transitions of
the match loop controller (GameEngine). Identifier and timestamp
bookkeeping (generateRoomId, createdAt, lastUpdate) is omitted: it is
time- and randomness-dependent and never read by the embedded logic. -/

/-- The GameStatus union of the server types. -/
inductive GameStatus where
  | waiting
  | ready
  | playing
  | paused
  | finished
deriving DecidableEq

/-- The game-state aggregate embedded in a room. -/
structure GameState where
  players : List Player
  ball : Ball
  gameStatus : GameStatus
  winner : Option String
deriving DecidableEq

/-- A named room and its game state. -/
structure Room where
  name : String
  gameState : GameState
deriving DecidableEq

/-- MAX_PLAYERS constant of RoomManager. -/
def MAX_PLAYERS : ℕ := 2

/-- Errors thrown by the room manager. -/
inductive RoomError where
  | roomFull
deriving DecidableEq

/-- RoomManager.createInitialGameState: empty player list, waiting
status, no winner, and a hard-coded ball at (400, 300) with velocity
(5, 3) and speed field 5. -/
def createInitialGameState : GameState :=
  { players := []
    ball := { x := 400, y := 300, velocityX := 5, velocityY := 3, speed := 5 }
    gameStatus := GameStatus.waiting
    winner := none }

/-- RoomManager.createRoom, at the level of a single room. -/
def createRoom (roomName : String) : Room :=
  { name := roomName, gameState := createInitialGameState }

/-- RoomManager.joinOrCreateRoom, applied to the lookup result for the
given name (none when the map has no such room). The source checks
capacity first, then whether the player is already present, then
appends and promotes the status to ready at exactly MAX_PLAYERS. -/
def joinOrCreateRoom (existing : Option Room) (roomName : String) (player : Player) :
    Except RoomError Room :=
  let room := match existing with
    | none => createRoom roomName
    | some r => r
  if MAX_PLAYERS ≤ room.gameState.players.length then
    Except.error RoomError.roomFull
  else if room.gameState.players.any (fun p => p.id == player.id) then
    Except.ok room
  else
    let players := room.gameState.players ++ [player]
    let status := if players.length == MAX_PLAYERS then GameStatus.ready
      else room.gameState.gameStatus
    Except.ok { room with gameState :=
      { room.gameState with players := players, gameStatus := status } }

/-- RoomManager.removePlayerFromRoom, at the level of the room that
owns the player (the source first scans for that room). Removes the
first player with the given id, demotes the status to waiting whenever
the remaining count is below MAX_PLAYERS, and deletes the room (result
none) once it is empty. A room not containing the player is returned
unchanged, matching the findIndex guard of the source. -/
def removePlayerFromRoom (room : Room) (playerId : String) : Option Room :=
  if room.gameState.players.any (fun p => p.id == playerId) then
    let players := room.gameState.players.eraseP (fun p => p.id == playerId)
    let status := if players.length < MAX_PLAYERS then GameStatus.waiting
      else room.gameState.gameStatus
    if players.length == 0 then none
    else some { room with gameState :=
      { room.gameState with players := players, gameStatus := status } }
  else some room

/-- WINNING_SCORE constant of GameEngine. -/
def WINNING_SCORE : ℕ := 5

/-- Discrete outbound events of the match loop controller, reduced to
the fields the claims are about. -/
inductive GameEvent where
  | pointScored (playerId : String) (score : ℕ) (side : Side)
  | gameStateUpdate
  | gameEnded (winnerId : String)
deriving DecidableEq

/-- The index into the player list credited for an exit on the given
side: players[1] when the ball left on the left, players[0] on the
right, as in GameEngine.handleScoring. -/
def scoringIndex (side : Side) : ℕ :=
  match side with
  | Side.left => 1
  | Side.right => 0

/-- GameEngine.handleScoring up to its timer scheduling: credit the
scoring player if one exists at the scoring index (otherwise log and
return with no mutation and no emission), replace the ball by the
reset ball (passed in, since the reset is randomized) and emit the
point-scored event. -/
def handleScoring (room : Room) (side : Side) (resetOutput : Ball) :
    Room × List GameEvent :=
  match room.gameState.players.get? (scoringIndex side) with
  | none => (room, [])
  | some scorer =>
    let scorer1 := { scorer with score := scorer.score + 1 }
    let players := room.gameState.players.set (scoringIndex side) scorer1
    let room1 := { room with gameState :=
      { room.gameState with players := players, ball := resetOutput } }
    (room1, [GameEvent.pointScored scorer1.id scorer1.score side])

/-- GameEngine.endGame: stop the loop, set status finished, record the
winner, clear ready flags, broadcast the state and emit game-ended.
The source performs all of this unconditionally. -/
def endGame (room : Room) (winnerId : String) : Room × List GameEvent :=
  let players := room.gameState.players.map (fun p => { p with isReady := false })
  ({ room with gameState :=
      { room.gameState with players := players
                            gameStatus := GameStatus.finished
                            winner := some winnerId } },
   [GameEvent.gameStateUpdate, GameEvent.gameEnded winnerId])

/-- The continuation GameEngine.handleScoring schedules 1500 ms after
a winning score, applied to the room as it stands when the timer
fires: it calls endGame with no status check. -/
def preFinishContinuation (winnerId : String) (room : Room) : Room × List GameEvent :=
  endGame room winnerId

/-- The continuation GameEngine.handleScoring schedules 2000 ms after
a non-winning score, applied to the room as it stands when the timer
fires: it broadcasts only if the status is still playing. -/
def postScoreContinuation (room : Room) : Room × List GameEvent :=
  if room.gameState.gameStatus = GameStatus.playing then
    (room, [GameEvent.gameStateUpdate])
  else (room, [])

/-! Concrete fixtures used to instantiate the theorems below. -/

/-- Left player fixture, paddle spanning y in [100, 180]. -/
def pL : Player := { id := "p1", paddleY := 100, score := 0, isReady := true }

/-- Right player fixture, paddle spanning y in [0, 80]. -/
def pR : Player := { id := "p2", paddleY := 0, score := 0, isReady := true }

/-- A player id not present in any fixture room. -/
def pNew : Player := { id := "p3", paddleY := 0, score := 0, isReady := false }

/-- Ball satisfying the speed invariant (120-160-200 triangle), about
to strike the left paddle at the paddle bottom (hit point 1). -/
def ballA : Ball := { x := 40, y := 180, velocityX := -120, velocityY := 160, speed := 200 }

/-- Ball satisfying the speed invariant, about to strike the left
paddle exactly at the paddle center y = 140. -/
def ballB : Ball := { x := 40, y := 140, velocityX := -120, velocityY := 160, speed := 200 }

/-- Ball overlapping the top wall while already moving downward. -/
def ballC : Ball := { x := 100, y := 2, velocityX := 4, velocityY := 3, speed := 200 }

/-- Ball already at MAX_SPEED (240-320-400 triangle), about to strike
the left paddle. -/
def ballD : Ball := { x := 40, y := 180, velocityX := -240, velocityY := 320, speed := 400 }

/-- Ball fully past the left boundary, moving left at mid-field. -/
def ballGoneLeft : Ball := { x := -20, y := 200, velocityX := -120, velocityY := 160, speed := 200 }

/-- A concrete stand-in for the randomized reset output handed to
handleScoring. -/
def ballCenter : Ball := { x := 400, y := 200, velocityX := -120, velocityY := 160, speed := 200 }

/-- Game state with a full room of two players, ready to play. -/
def gsFull : GameState :=
  { createInitialGameState with players := [pL, pR], gameStatus := GameStatus.ready }

/-- Full two-player room fixture. -/
def roomFull2 : Room := { name := "r", gameState := gsFull }

/-- Room holding only the left player. -/
def roomOneP : Room :=
  { name := "r", gameState := { createInitialGameState with players := [pL] } }

/-- Full room whose game has finished. -/
def roomFin : Room :=
  { name := "r", gameState := { gsFull with gameStatus := GameStatus.finished } }

/-- The room left behind when player p1 is removed from the finished
room: one remaining player, status demoted to waiting. -/
def roomFinAfter : Room :=
  { roomFin with gameState :=
      { roomFin.gameState with
          players := roomFin.gameState.players.eraseP (fun q => q.id == "p1")
          gameStatus := GameStatus.waiting } }

/-- A playing room that has lost its second player. -/
def roomOne : Room :=
  { name := "r", gameState :=
      { createInitialGameState with players := [pL], gameStatus := GameStatus.playing } }

/-- A full room already reset to waiting, as after a mid-game
disconnect: the stale state a delayed continuation can observe. -/
def roomStale : Room :=
  { name := "r", gameState := { gsFull with gameStatus := GameStatus.waiting } }

deriving instance DecidableEq for Except

/-! Theorems. -/

/-- C10: every room returned by createRoom (and hence by joinOrCreate
when it creates the room) starts with status waiting, an empty player
list, winner null, and a ball fixed at (400, 300) with velocity (5, 3)
and speed field 5 — so before the first game start the speed field
does not equal the velocity magnitude and the vertical position is not
the vertical center 200 of the default 800-by-400 field. -/
theorem C10_initial_room_state :
    (∀ name : String, (createRoom name).gameState = createInitialGameState) ∧
    createInitialGameState.gameStatus = GameStatus.waiting ∧
    createInitialGameState.players = [] ∧
    createInitialGameState.winner = none ∧
    createInitialGameState.ball =
      { x := 400, y := 300, velocityX := 5, velocityY := 3, speed := 5 } ∧
    ¬ speedInv createInitialGameState.ball ∧
    createInitialGameState.ball.y ≠ DEFAULT_GAME_DIMENSIONS.height / 2 := by
  refine ⟨fun _ => rfl, ?_⟩
  norm_num [createInitialGameState, speedInv, DEFAULT_GAME_DIMENSIONS]

/-- C8: scoring detection returns a side exactly when the ball has
fully cleared a boundary by its radius: left exactly when x plus the
radius is below 0, right exactly when x minus the radius is beyond the
width; in particular x = -radius + 1 does not score, x = -radius - 1
scores left, and symmetrically at the right edge. -/
theorem C8_scoring_iff_edge_clears :
    (∀ b : Ball,
      (checkScoringCollisions DEFAULT_GAME_DIMENSIONS b = some Side.left ↔
        b.x + DEFAULT_GAME_DIMENSIONS.ballSize / 2 < 0) ∧
      (checkScoringCollisions DEFAULT_GAME_DIMENSIONS b = some Side.right ↔
        b.x - DEFAULT_GAME_DIMENSIONS.ballSize / 2 > DEFAULT_GAME_DIMENSIONS.width) ∧
      (checkScoringCollisions DEFAULT_GAME_DIMENSIONS b = none ↔
        ¬ (b.x + DEFAULT_GAME_DIMENSIONS.ballSize / 2 < 0 ∨
           b.x - DEFAULT_GAME_DIMENSIONS.ballSize / 2 > DEFAULT_GAME_DIMENSIONS.width))) ∧
    checkScoringCollisions DEFAULT_GAME_DIMENSIONS
      { ballGoneLeft with x := -(15/2) + 1 } = none ∧
    checkScoringCollisions DEFAULT_GAME_DIMENSIONS
      { ballGoneLeft with x := -(15/2) - 1 } = some Side.left ∧
    checkScoringCollisions DEFAULT_GAME_DIMENSIONS
      { ballGoneLeft with x := 800 + 15/2 - 1 } = none ∧
    checkScoringCollisions DEFAULT_GAME_DIMENSIONS
      { ballGoneLeft with x := 800 + 15/2 + 1 } = some Side.right := by
  refine ⟨fun b => ?_, ?_, ?_, ?_, ?_⟩
  · simp only [checkScoringCollisions, DEFAULT_GAME_DIMENSIONS]
    split_ifs with h1 h2 <;> refine ⟨?_, ?_, ?_⟩ <;> simp_all <;> try linarith
  all_goals norm_num [checkScoringCollisions, DEFAULT_GAME_DIMENSIONS, ballGoneLeft]

/-- C6: the code does not enforce the minimum-angle floor on a hit
exactly at the paddle center: the collision is registered, yet the
resulting vertical velocity is 0 — the ball leaves travelling
perfectly horizontally although MIN_ANGLE times the resulting speed is
nonzero. -/
theorem C6_dead_center_hit_is_horizontal :
    ballB.y = pL.paddleY + DEFAULT_GAME_DIMENSIONS.paddleHeight / 2 ∧
    (checkPaddleCollisions DEFAULT_GAME_DIMENSIONS ballB [pL, pR]).2 = true ∧
    (checkPaddleCollisions DEFAULT_GAME_DIMENSIONS ballB [pL, pR]).1.velocityY = 0 ∧
    MIN_ANGLE * (checkPaddleCollisions DEFAULT_GAME_DIMENSIONS ballB [pL, pR]).1.speed ≠ 0 := by
  norm_num [checkPaddleCollisions, paddleHit1, paddleHit2, paddleDeflect, qsign,
    increaseBallSpeed, ballB, pL, pR, DEFAULT_GAME_DIMENSIONS, MIN_ANGLE,
    SPEED_INCREASE, MAX_SPEED]

/-- C4: the continuation scheduled 1500 ms before finishing the game
performs no status check: applied to a room whose status has already
moved on to waiting, it still mutates the room to finished, records a
winner and emits events, while the 2000 ms post-score continuation is
correctly guarded and no-ops on the same stale room. -/
theorem C4_prefinish_continuation_unguarded :
    roomStale.gameState.gameStatus ≠ GameStatus.playing ∧
    roomStale.gameState.gameStatus ≠ GameStatus.finished ∧
    (preFinishContinuation "p1" roomStale).1.gameState.gameStatus = GameStatus.finished ∧
    (preFinishContinuation "p1" roomStale).1.gameState.winner = some "p1" ∧
    (preFinishContinuation "p1" roomStale).2 =
      [GameEvent.gameStateUpdate, GameEvent.gameEnded "p1"] ∧
    postScoreContinuation roomStale = (roomStale, []) := by
  norm_num [preFinishContinuation, postScoreContinuation, endGame, roomStale, gsFull,
    createInitialGameState, pL, pR]
  all_goals decide

/-- Neither paddle branch changes the speed field. -/
theorem paddleHit1_speed (dims : GameDimensions) (b : Ball) (p : Player) :
    (paddleHit1 dims b p).1.speed = b.speed := by
  simp only [paddleHit1]
  split_ifs <;> rfl

/-- Neither paddle branch changes the speed field (right paddle). -/
theorem paddleHit2_speed (dims : GameDimensions) (b0 b : Ball) (p : Player) :
    (paddleHit2 dims b0 b p).1.speed = b.speed := by
  simp only [paddleHit2]
  split_ifs <;> rfl

/-- The speed written by increaseBallSpeed is the capped increment. -/
theorem increaseBallSpeed_speed (b : Ball) :
    (increaseBallSpeed b).speed = min (b.speed + SPEED_INCREASE) MAX_SPEED := rfl

/-- Whenever checkPaddleCollisions reports a hit, the resulting speed
field is the capped increment of the incoming speed field. -/
theorem checkPaddleCollisions_speed (dims : GameDimensions) (b : Ball)
    (players : List Player)
    (h : (checkPaddleCollisions dims b players).2 = true) :
    (checkPaddleCollisions dims b players).1.speed
      = min (b.speed + SPEED_INCREASE) MAX_SPEED := by
  match players with
  | [] => simp [checkPaddleCollisions] at h
  | [p] => simp [checkPaddleCollisions] at h
  | p1 :: p2 :: rest =>
    simp only [checkPaddleCollisions] at h ⊢
    split_ifs at h ⊢ with hc
    simp [increaseBallSpeed_speed, paddleHit2_speed, paddleHit1_speed]

/-- C7: the claim fails at the speed cap: a paddle collision of a ball
already at MAX_SPEED registers, yet the scalar speed does not strictly
increase — it stays exactly 400. -/
theorem C7_counterexample_no_increase_at_cap :
    ballD.speed = MAX_SPEED ∧
    (checkPaddleCollisions DEFAULT_GAME_DIMENSIONS ballD [pL, pR]).2 = true ∧
    (checkPaddleCollisions DEFAULT_GAME_DIMENSIONS ballD [pL, pR]).1.speed = ballD.speed ∧
    ¬ ballD.speed < (checkPaddleCollisions DEFAULT_GAME_DIMENSIONS ballD [pL, pR]).1.speed := by
  norm_num [checkPaddleCollisions, paddleHit1, paddleHit2, paddleDeflect, qsign,
    increaseBallSpeed, ballD, pL, pR, DEFAULT_GAME_DIMENSIONS, MIN_ANGLE,
    SPEED_INCREASE, MAX_SPEED]

/-- C7 amended: on every paddle collision the post-collision speed
equals min(pre + 20, 400); it strictly increases exactly while the
pre-collision speed is below the 400 cap, and a speed at most the cap
never exceeds it. -/
theorem C7_amended_speed_increment_capped (dims : GameDimensions) (b : Ball)
    (players : List Player)
    (h : (checkPaddleCollisions dims b players).2 = true) :
    (checkPaddleCollisions dims b players).1.speed
        = min (b.speed + SPEED_INCREASE) MAX_SPEED ∧
      (b.speed < MAX_SPEED → b.speed < (checkPaddleCollisions dims b players).1.speed) ∧
      (b.speed ≤ MAX_SPEED → (checkPaddleCollisions dims b players).1.speed ≤ MAX_SPEED) := by
  have hs := checkPaddleCollisions_speed dims b players h
  refine ⟨hs, fun hlt => ?_, fun hle => ?_⟩
  · rw [hs]
    exact lt_min (by unfold SPEED_INCREASE; linarith) hlt
  · rw [hs]
    exact min_le_right _ _

/-- C7 witness: a concrete collision below the cap, where the speed
rises from 200 to exactly min(200 + 20, 400) = 220. -/
theorem C7_amended_witness :
    (checkPaddleCollisions DEFAULT_GAME_DIMENSIONS ballA [pL, pR]).1.speed
        = min (ballA.speed + SPEED_INCREASE) MAX_SPEED ∧
      (ballA.speed < MAX_SPEED →
        ballA.speed < (checkPaddleCollisions DEFAULT_GAME_DIMENSIONS ballA [pL, pR]).1.speed) ∧
      (ballA.speed ≤ MAX_SPEED →
        (checkPaddleCollisions DEFAULT_GAME_DIMENSIONS ballA [pL, pR]).1.speed ≤ MAX_SPEED) :=
  C7_amended_speed_increment_capped DEFAULT_GAME_DIMENSIONS ballA [pL, pR]
    (by norm_num [checkPaddleCollisions, paddleHit1, paddleHit2, paddleDeflect, qsign,
      increaseBallSpeed, ballA, pL, pR, DEFAULT_GAME_DIMENSIONS, MIN_ANGLE,
      SPEED_INCREASE, MAX_SPEED])

/-- C1: the speed invariant is not preserved by paddle collisions: a
ball satisfying it (120-160-200) strikes the left paddle at hit point
1 and leaves with velocity (132, 154) and speed field 220, where 220²
exceeds 132² + 154² by 7260 — far beyond floating tolerance. -/
theorem C1_counterexample_paddle_breaks_invariant :
    speedInv ballA ∧
    (checkPaddleCollisions DEFAULT_GAME_DIMENSIONS ballA [pL, pR]).2 = true ∧
    (checkPaddleCollisions DEFAULT_GAME_DIMENSIONS ballA [pL, pR]).1 =
      { x := 105/2, y := 180, velocityX := 132, velocityY := 154, speed := 220 } ∧
    (checkPaddleCollisions DEFAULT_GAME_DIMENSIONS ballA [pL, pR]).1.speed ^ 2 -
      ((checkPaddleCollisions DEFAULT_GAME_DIMENSIONS ballA [pL, pR]).1.velocityX ^ 2 +
       (checkPaddleCollisions DEFAULT_GAME_DIMENSIONS ballA [pL, pR]).1.velocityY ^ 2) = 7260 ∧
    ¬ speedInv (checkPaddleCollisions DEFAULT_GAME_DIMENSIONS ballA [pL, pR]).1 := by
  norm_num [checkPaddleCollisions, paddleHit1, paddleHit2, paddleDeflect, qsign,
    increaseBallSpeed, speedInv, ballA, pL, pR, DEFAULT_GAME_DIMENSIONS, MIN_ANGLE,
    SPEED_INCREASE, MAX_SPEED]

/-- C1 amended: the speed invariant is preserved by the position
update including its wall bounces, and holds for every reset output
(the random direction draw being a sign); paddle collisions, in
contrast, need not preserve it, as the counterexample shows. -/
theorem C1_amended_invariant_update_and_reset :
    (∀ (dims : GameDimensions) (b : Ball) (dt : ℚ),
      speedInv b → speedInv (updateBallPosition dims b dt)) ∧
    (∀ (dims : GameDimensions) (direction angle : ℝ),
      direction ^ 2 = 1 → speedInvR (resetBall dims direction angle)) := by
  constructor
  · intro dims b dt h
    simp only [speedInv, updateBallPosition, checkWallCollisions] at h ⊢
    split_ifs <;> simp_all [neg_sq, sq_abs]
  · intro dims direction angle h
    simp only [speedInvR, resetBall]
    have hs := Real.sin_sq_add_cos_sq angle
    calc ((INITIAL_SPEED : ℚ) : ℝ) ^ 2
        = direction ^ 2 * (((INITIAL_SPEED : ℚ) : ℝ) ^ 2 * Real.cos angle ^ 2)
            + ((INITIAL_SPEED : ℚ) : ℝ) ^ 2 * Real.sin angle ^ 2 := by
          rw [h]
          nlinarith [hs]
      _ = (direction * ((INITIAL_SPEED : ℚ) : ℝ) * Real.cos angle) ^ 2
            + (((INITIAL_SPEED : ℚ) : ℝ) * Real.sin angle) ^ 2 := by ring

/-- C1 witness: the preserved cases at concrete inputs: an update step
of the 120-160-200 ball, and a reset with direction 1 at angle 0. -/
theorem C1_amended_witness :
    speedInv (updateBallPosition DEFAULT_GAME_DIMENSIONS ballA (1/100)) ∧
    speedInvR (resetBall DEFAULT_GAME_DIMENSIONS 1 0) :=
  ⟨C1_amended_invariant_update_and_reset.1 DEFAULT_GAME_DIMENSIONS ballA (1/100)
      (by norm_num [speedInv, ballA]),
   C1_amended_invariant_update_and_reset.2 DEFAULT_GAME_DIMENSIONS 1 0 (one_pow 2)⟩

/-- C5: a wall collision does not always flip the vertical velocity
sign: the ball at y = 2 overlaps the top wall after a 0.1 s step while
already moving downward; the code clamps y to the radius and takes the
absolute value, so the velocity stays (4, 3) — same sign as before. -/
theorem C5_counterexample_no_sign_flip :
    ballC.y + ballC.velocityY * (1/10) - DEFAULT_GAME_DIMENSIONS.ballSize / 2 ≤ 0 ∧
    0 < ballC.velocityY ∧
    (updateBallPosition DEFAULT_GAME_DIMENSIONS ballC (1/10)).y
      = DEFAULT_GAME_DIMENSIONS.ballSize / 2 ∧
    (updateBallPosition DEFAULT_GAME_DIMENSIONS ballC (1/10)).velocityY
      = ballC.velocityY ∧
    ¬ (updateBallPosition DEFAULT_GAME_DIMENSIONS ballC (1/10)).velocityY
      = -ballC.velocityY := by
  norm_num [updateBallPosition, checkWallCollisions, ballC, DEFAULT_GAME_DIMENSIONS]

/-- A ball overlapping the top wall is clamped to the radius with the
vertical velocity made positive (the bottom branch cannot also fire
when the ball fits in the field). -/
theorem checkWallCollisions_top_eq (dims : GameDimensions) (b : Ball)
    (hdim : dims.ballSize < dims.height)
    (h : b.y - dims.ballSize / 2 ≤ 0) :
    checkWallCollisions dims b
      = { b with y := dims.ballSize / 2, velocityY := |b.velocityY| } := by
  simp only [checkWallCollisions]
  rw [if_pos h, if_neg (by dsimp; intro hc; linarith)]

/-- A ball overlapping only the bottom wall is clamped to height minus
the radius with the vertical velocity made negative. -/
theorem checkWallCollisions_bot_eq (dims : GameDimensions) (b : Ball)
    (h1 : ¬ b.y - dims.ballSize / 2 ≤ 0)
    (h2 : b.y + dims.ballSize / 2 ≥ dims.height) :
    checkWallCollisions dims b
      = { b with y := dims.height - dims.ballSize / 2, velocityY := -|b.velocityY| } := by
  simp only [checkWallCollisions]
  rw [if_neg h1, if_pos h2]

/-- C5 amended: during a position update a ball overlapping the top
wall is clamped exactly to y = radius and a ball overlapping only the
bottom wall to y = height - radius; the vertical velocity is made to
point away from the wall with unchanged magnitude — a sign flip
exactly when the ball was moving toward that wall — and the horizontal
velocity is unchanged. -/
theorem C5_amended_wall_clamp_reflect (dims : GameDimensions) (b : Ball) (dt : ℚ)
    (hdim : dims.ballSize < dims.height) :
    (b.y + b.velocityY * dt - dims.ballSize / 2 ≤ 0 →
      (updateBallPosition dims b dt).y = dims.ballSize / 2 ∧
      (updateBallPosition dims b dt).velocityY = |b.velocityY| ∧
      (updateBallPosition dims b dt).velocityX = b.velocityX ∧
      (b.velocityY < 0 → (updateBallPosition dims b dt).velocityY = -b.velocityY)) ∧
    (0 < b.y + b.velocityY * dt - dims.ballSize / 2 →
      dims.height ≤ b.y + b.velocityY * dt + dims.ballSize / 2 →
      (updateBallPosition dims b dt).y = dims.height - dims.ballSize / 2 ∧
      (updateBallPosition dims b dt).velocityY = -|b.velocityY| ∧
      (updateBallPosition dims b dt).velocityX = b.velocityX ∧
      (0 < b.velocityY → (updateBallPosition dims b dt).velocityY = -b.velocityY)) := by
  constructor
  · intro htop
    have e := checkWallCollisions_top_eq dims
      { b with x := b.x + b.velocityX * dt, y := b.y + b.velocityY * dt } hdim htop
    unfold updateBallPosition
    rw [e]
    exact ⟨rfl, rfl, rfl, fun hv => abs_of_neg hv⟩
  · intro htop hbot
    have e := checkWallCollisions_bot_eq dims
      { b with x := b.x + b.velocityX * dt, y := b.y + b.velocityY * dt }
      (by intro hc; dsimp at hc; linarith) (by dsimp; linarith)
    unfold updateBallPosition
    rw [e]
    refine ⟨rfl, rfl, rfl, fun hv => ?_⟩
    rw [abs_of_pos hv]

/-- C5 witness: the top-wall case at the concrete downward-moving
overlapping ball, clamped to y = 7.5 with velocity made downward. -/
theorem C5_amended_witness :
    (updateBallPosition DEFAULT_GAME_DIMENSIONS ballC (1/10)).y
        = DEFAULT_GAME_DIMENSIONS.ballSize / 2 ∧
      (updateBallPosition DEFAULT_GAME_DIMENSIONS ballC (1/10)).velocityY
        = |ballC.velocityY| ∧
      (updateBallPosition DEFAULT_GAME_DIMENSIONS ballC (1/10)).velocityX
        = ballC.velocityX ∧
      (ballC.velocityY < 0 →
        (updateBallPosition DEFAULT_GAME_DIMENSIONS ballC (1/10)).velocityY
          = -ballC.velocityY) :=
  (C5_amended_wall_clamp_reflect DEFAULT_GAME_DIMENSIONS ballC (1/10)
      (by norm_num [DEFAULT_GAME_DIMENSIONS])).1
    (by norm_num [ballC, DEFAULT_GAME_DIMENSIONS])

/-- C2: re-joining is not idempotent on a full room: the capacity
check runs before the membership check, so a player already present in
a 2-player room gets RoomFull instead of the existing room. -/
theorem C2_counterexample_rejoin_full_room :
    roomFull2.gameState.players.any (fun q => q.id == pL.id) = true ∧
    roomFull2.gameState.players.length = 2 ∧
    joinOrCreateRoom (some roomFull2) "r" pL = Except.error RoomError.roomFull := by
  decide

/-- C2 amended: joinOrCreate fails with RoomFull whenever 2 players
are already present — even for a player already in the room; below
capacity it is idempotent for a present player (the room is returned
unchanged, so the list length never changes) and appends an absent
player, growing the list by exactly one. -/
theorem C2_amended_capacity_before_membership (room : Room) (nm : String) (p : Player) :
    (MAX_PLAYERS ≤ room.gameState.players.length →
      joinOrCreateRoom (some room) nm p = Except.error RoomError.roomFull) ∧
    (room.gameState.players.length < MAX_PLAYERS →
      room.gameState.players.any (fun q => q.id == p.id) = true →
      joinOrCreateRoom (some room) nm p = Except.ok room) ∧
    (room.gameState.players.length < MAX_PLAYERS →
      room.gameState.players.any (fun q => q.id == p.id) = false →
      ∃ r2 : Room, joinOrCreateRoom (some room) nm p = Except.ok r2 ∧
        r2.gameState.players.length = room.gameState.players.length + 1) := by
  refine ⟨fun hfull => ?_, fun hlt hmem => ?_, fun hlt hmem => ?_⟩
  · simp only [joinOrCreateRoom]
    rw [if_pos hfull]
  · simp only [joinOrCreateRoom]
    rw [if_neg (not_le.mpr hlt), if_pos hmem]
  · simp only [joinOrCreateRoom]
    rw [if_neg (not_le.mpr hlt), if_neg (by simp [hmem])]
    exact ⟨_, rfl, by simp⟩

/-- C2 witness: a member of a full room is refused with RoomFull; a
member of a 1-player room re-joins idempotently; a new player joins a
1-player room and the list grows to 2. -/
theorem C2_amended_witness :
    joinOrCreateRoom (some roomFull2) "r" pNew = Except.error RoomError.roomFull ∧
    joinOrCreateRoom (some roomOneP) "r" pL = Except.ok roomOneP ∧
    ∃ r2 : Room, joinOrCreateRoom (some roomOneP) "r" pR = Except.ok r2 ∧
      r2.gameState.players.length = roomOneP.gameState.players.length + 1 :=
  ⟨(C2_amended_capacity_before_membership roomFull2 "r" pNew).1 (by decide),
   (C2_amended_capacity_before_membership roomOneP "r" pL).2.1 (by decide) (by decide),
   (C2_amended_capacity_before_membership roomOneP "r" pR).2.2 (by decide) (by decide)⟩

/-- C9: removal demotes the status to waiting from any prior status,
not only from ready or playing: removing a player from a finished
2-player room yields a waiting room. -/
theorem C9_counterexample_waiting_from_finished :
    roomFin.gameState.gameStatus = GameStatus.finished ∧
    roomFin.gameState.gameStatus ≠ GameStatus.ready ∧
    roomFin.gameState.gameStatus ≠ GameStatus.playing ∧
    (removePlayerFromRoom roomFin "p1").map (fun r => r.gameState.gameStatus)
      = some GameStatus.waiting := by
  decide

/-- C9 amended: on join the surviving room's status becomes ready
exactly when the player count reaches 2 (otherwise it is unchanged);
on removal of a present player the surviving room's status is set to
waiting whenever the remaining count is below 2, regardless of the
prior status (finished and paused included), and kept otherwise;
removing an absent player changes nothing. -/
theorem C9_amended_status_transitions (room : Room) (nm : String) (p : Player)
    (pid : String) :
    (room.gameState.players.length < MAX_PLAYERS →
      room.gameState.players.any (fun q => q.id == p.id) = false →
      ∃ r2 : Room, joinOrCreateRoom (some room) nm p = Except.ok r2 ∧
        r2.gameState.players.length = room.gameState.players.length + 1 ∧
        (r2.gameState.players.length = MAX_PLAYERS →
          r2.gameState.gameStatus = GameStatus.ready) ∧
        (r2.gameState.players.length ≠ MAX_PLAYERS →
          r2.gameState.gameStatus = room.gameState.gameStatus)) ∧
    (∀ r2 : Room, removePlayerFromRoom room pid = some r2 →
      room.gameState.players.any (fun q => q.id == pid) = true →
      (r2.gameState.players.length < MAX_PLAYERS →
        r2.gameState.gameStatus = GameStatus.waiting) ∧
      (MAX_PLAYERS ≤ r2.gameState.players.length →
        r2.gameState.gameStatus = room.gameState.gameStatus)) ∧
    (room.gameState.players.any (fun q => q.id == pid) = false →
      removePlayerFromRoom room pid = some room) := by
  refine ⟨fun hlt hmem => ?_, fun r2 hr hmem => ?_, fun hmem => ?_⟩
  · simp only [joinOrCreateRoom]
    rw [if_neg (not_le.mpr hlt), if_neg (by simp [hmem])]
    refine ⟨_, rfl, by simp, fun h2 => ?_, fun h2 => ?_⟩
    · simp only []
      rw [if_pos]
      simpa using h2
    · simp only []
      rw [if_neg]
      simpa using h2
  · simp only [removePlayerFromRoom] at hr
    rw [if_pos hmem] at hr
    split at hr
    · simp at hr
    · rw [Option.some_inj] at hr
      subst hr
      refine ⟨fun hlen => ?_, fun hlen => ?_⟩
      · simp only []
        rw [if_pos]
        simpa using hlen
      · simp only []
        rw [if_neg]
        simpa using not_lt.mpr hlen
  · simp only [removePlayerFromRoom]
    rw [if_neg (by simp [hmem])]

/-- C9 witness: joining the 1-player room reaches 2 players and ready;
removing a player from the finished 2-player room leaves 1 player and
status waiting. -/
theorem C9_amended_witness :
    (∃ r2 : Room, joinOrCreateRoom (some roomOneP) "r" pR = Except.ok r2 ∧
        r2.gameState.players.length = roomOneP.gameState.players.length + 1 ∧
        (r2.gameState.players.length = MAX_PLAYERS →
          r2.gameState.gameStatus = GameStatus.ready) ∧
        (r2.gameState.players.length ≠ MAX_PLAYERS →
          r2.gameState.gameStatus = roomOneP.gameState.gameStatus)) ∧
    ((roomFinAfter.gameState.players.length < MAX_PLAYERS →
        roomFinAfter.gameState.gameStatus = GameStatus.waiting) ∧
      (MAX_PLAYERS ≤ roomFinAfter.gameState.players.length →
        roomFinAfter.gameState.gameStatus = roomFin.gameState.gameStatus)) :=
  ⟨(C9_amended_status_transitions roomOneP "r" pR "z").1 (by decide) (by decide),
   (C9_amended_status_transitions roomFin "r" pR "p1").2.1 roomFinAfter rfl (by decide)⟩

/-- C3: with no second player in the room, a left-side score is not
attributed to anyone: the ball being fully past x = 0 and moving left
is detected, but handleScoring returns the room unchanged with no
emission instead of crediting the right-side player. -/
theorem C3_counterexample_no_second_player :
    roomOne.gameState.players.length = 1 ∧
    ballGoneLeft.velocityX < 0 ∧
    checkScoringCollisions DEFAULT_GAME_DIMENSIONS ballGoneLeft = some Side.left ∧
    handleScoring roomOne Side.left ballCenter = (roomOne, []) := by
  refine ⟨rfl, ?_, ?_, rfl⟩
  · norm_num [ballGoneLeft]
  · norm_num [checkScoringCollisions, ballGoneLeft, DEFAULT_GAME_DIMENSIONS]

/-- C3 amended: a left-side exit is credited to the player at index 1
(the right side) whenever that player exists: their score rises by 1,
the ball is replaced by the reset ball and a point-scored event is
emitted; when no player sits at the scoring index the room is returned
unchanged and nothing is emitted. -/
theorem C3_amended_scoring_attribution (room : Room) (side : Side) (rb : Ball) :
    scoringIndex Side.left = 1 ∧
    (room.gameState.players.get? (scoringIndex side) = none →
      handleScoring room side rb = (room, [])) ∧
    (∀ sp : Player, room.gameState.players.get? (scoringIndex side) = some sp →
      ∃ r2 : Room,
        handleScoring room side rb
          = (r2, [GameEvent.pointScored sp.id (sp.score + 1) side]) ∧
        (r2.gameState.players.get? (scoringIndex side)).map Player.score
          = some (sp.score + 1) ∧
        r2.gameState.ball = rb ∧
        r2.gameState.gameStatus = room.gameState.gameStatus ∧
        r2.gameState.players.length = room.gameState.players.length) := by
  refine ⟨rfl, fun hnone => ?_, fun sp hsp => ?_⟩
  · simp only [handleScoring, hnone]
  · have hlt : scoringIndex side < room.gameState.players.length := by
      rcases List.get?_eq_some.mp hsp with ⟨h, _⟩
      exact h
    simp only [handleScoring, hsp]
    refine ⟨_, rfl, ?_, rfl, rfl, by simp⟩
    rw [List.get?_eq_getElem?, List.getElem?_set_eq_of_lt _ (by simpa using hlt)]
    rfl

/-- C3 witness: in the full 2-player room a left exit credits the
right-side player p2, whose score becomes 1, and the reset ball is
installed. -/
theorem C3_amended_witness :
    ∃ r2 : Room,
      handleScoring roomFull2 Side.left ballCenter
        = (r2, [GameEvent.pointScored pR.id (pR.score + 1) Side.left]) ∧
      (r2.gameState.players.get? (scoringIndex Side.left)).map Player.score
        = some (pR.score + 1) ∧
      r2.gameState.ball = ballCenter ∧
      r2.gameState.gameStatus = roomFull2.gameState.gameStatus ∧
      r2.gameState.players.length = roomFull2.gameState.players.length :=
  (C3_amended_scoring_attribution roomFull2 Side.left ballCenter).2.2 pR rfl

end Pong
